import Mathlib

/-!
# DeepScent / Aether — formula engine verification

Shallow embedding of the DeepScent repository's formula data model and the
frontend utility functions (`src/frontend/src/lib/utils.ts`,
`src/unnamed/part_002` — the result page holding the `sampleFormula`
constant and the `handleExport` serializer), together with spec-modelled
definitions for the backend renormalization and compliance-validation
steps whose implementation files are not part of the source snapshot.

Numbers are embedded as rationals (`ℚ`); all numeric literals appearing in
the source are exactly representable.
-/

/-- A note entry of the result page's formula record:
`{ name, concentration, sustainable }` (part_002, lines 19-33). -/
structure FormulaComponent where
  name : String
  concentration : ℚ
  sustainable : Bool
deriving DecidableEq

/-- The metrics record of `sampleFormula` (part_002, lines 34-40):
five keys, including `uniqueness`. -/
structure FormulaMetrics where
  longevity : ℚ
  projection : ℚ
  uniqueness : ℚ
  sustainability : ℚ
  ifraCompliance : ℚ
deriving DecidableEq

/-- The formula record shape used by the result page (part_002, lines 15-41):
`name`, `description`, `topNotes`, `middleNotes`, `baseNotes`, `metrics`. -/
structure Formula where
  name : String
  description : String
  topNotes : List FormulaComponent
  middleNotes : List FormulaComponent
  baseNotes : List FormulaComponent
  metrics : FormulaMetrics
deriving DecidableEq

/-- The hardcoded formula constant rendered on the result page
(part_002, lines 15-41), transcribed verbatim. -/
def sampleFormula : Formula :=
  { name := "Kyoto Morning Rain"
    description := "A contemplative blend capturing the essence of dawn in a Japanese garden, where petrichor meets ancient cypress."
    topNotes :=
      [ { name := "Yuzu", concentration := 8, sustainable := true }
      , { name := "Green Tea Accord", concentration := 5, sustainable := true }
      , { name := "Pink Pepper", concentration := 3, sustainable := false } ]
    middleNotes :=
      [ { name := "Hinoki Wood", concentration := 15, sustainable := true }
      , { name := "Iris Pallida", concentration := 12, sustainable := true }
      , { name := "Shiso Leaf", concentration := 8, sustainable := true } ]
    baseNotes :=
      [ { name := "Vetiver Haiti", concentration := 18, sustainable := true }
      , { name := "White Musk", concentration := 12, sustainable := true }
      , { name := "Ambergris Accord", concentration := 10, sustainable := false } ]
    metrics :=
      { longevity := 85
        projection := 65
        uniqueness := 92
        sustainability := 78
        ifraCompliance := 100 } }

/-- Sum of the concentrations of one tier's note list. -/
def tierTotal (notes : List FormulaComponent) : ℚ :=
  (notes.map (fun c => c.concentration)).sum

/-- Total concentration of a formula record across all three tiers. -/
def totalConcentration (f : Formula) : ℚ :=
  tierTotal f.topNotes + tierTotal f.middleNotes + tierTotal f.baseNotes

/-! JSON serialization (part_002 `handleExport`, lines 369-389).

The function `handleExport` serializes the formula object with `JSON.stringify`, which
emits object keys in property-insertion order; we model the emitted JSON
value directly. -/

/-- A JSON value, as produced by `JSON.stringify`. -/
inductive Json where
  | str : String → Json
  | num : ℚ → Json
  | bool : Bool → Json
  | arr : List Json → Json
  | obj : List (String × Json) → Json

/-- Serialization of one note entry: keys `name`, `concentration`,
`sustainable`, in declaration order. -/
def serializeComponent (c : FormulaComponent) : Json :=
  .obj [ ("name", .str c.name)
       , ("concentration", .num c.concentration)
       , ("sustainable", .bool c.sustainable) ]

/-- Serialization of the metrics record: the five keys of
`sampleFormula.metrics` in declaration order. -/
def serializeMetrics (m : FormulaMetrics) : Json :=
  .obj [ ("longevity", .num m.longevity)
       , ("projection", .num m.projection)
       , ("uniqueness", .num m.uniqueness)
       , ("sustainability", .num m.sustainability)
       , ("ifraCompliance", .num m.ifraCompliance) ]

/-- Serialization of the formula record exported by `handleExport`:
keys in property-insertion order of the object literal at
part_002 lines 15-41. -/
def serializeFormula (f : Formula) : Json :=
  .obj [ ("name", .str f.name)
       , ("description", .str f.description)
       , ("topNotes", .arr (f.topNotes.map serializeComponent))
       , ("middleNotes", .arr (f.middleNotes.map serializeComponent))
       , ("baseNotes", .arr (f.baseNotes.map serializeComponent))
       , ("metrics", serializeMetrics f.metrics) ]

/-- Top-level key list of a serialized JSON object. -/
def objKeys : Json → List String
  | .obj kvs => kvs.map (fun kv => kv.1)
  | _ => []

/-! Frontend utilities of `src/frontend/src/lib/utils.ts`. -/

/-- Embedding of `getMoodLabel` (utils.ts, lines 50-56): mood quadrant label from
valence/arousal, with ±0.15 thresholds. -/
def getMoodLabel (valence arousal : ℚ) : String :=
  if 0.15 < valence ∧ 0.15 < arousal then "Excited / Joyful"
  else if 0.15 < valence ∧ arousal < -0.15 then "Calm / Content"
  else if valence < -0.15 ∧ 0.15 < arousal then "Tense / Anxious"
  else if valence < -0.15 ∧ arousal < -0.15 then "Melancholic / Sad"
  else "Neutral / Balanced"

/-- Embedding of `getScentFamilies` (utils.ts, lines 61-75): scent-family
recommendations from the same valence/arousal quadrants. -/
def getScentFamilies (valence arousal : ℚ) : List String :=
  if 0.15 < valence ∧ 0.15 < arousal then
    ["Citrus", "Fresh", "Fruity", "Sparkling"]
  else if 0.15 < valence ∧ arousal < -0.15 then
    ["Woody", "Floral", "Musky", "Amber"]
  else if valence < -0.15 ∧ 0.15 < arousal then
    ["Herbal", "Green", "Aquatic", "Aromatic"]
  else if valence < -0.15 ∧ arousal < -0.15 then
    ["Resinous", "Ambery", "Earthy", "Smoky"]
  else
    ["Woody", "Aromatic", "Floral", "Balanced"]

/-- The family list `getScentFamilies` associates with each label
`getMoodLabel` can return (relating the two quadrant tables). -/
def moodFamilies (label : String) : List String :=
  if label = "Excited / Joyful" then ["Citrus", "Fresh", "Fruity", "Sparkling"]
  else if label = "Calm / Content" then ["Woody", "Floral", "Musky", "Amber"]
  else if label = "Tense / Anxious" then ["Herbal", "Green", "Aquatic", "Aromatic"]
  else if label = "Melancholic / Sad" then ["Resinous", "Ambery", "Earthy", "Smoky"]
  else ["Woody", "Aromatic", "Floral", "Balanced"]

/-- Embedding of `clamp` (utils.ts, lines 94-96): `Math.min(Math.max(value, min), max)`. -/
def clamp (value min max : ℚ) : ℚ :=
  Min.min (Max.max value min) max

/-- Embedding of `mapRange` (utils.ts, lines 108-116): affine range remap with an
unguarded division by `inMax - inMin`. -/
def mapRange (value inMin inMax outMin outMax : ℚ) : ℚ :=
  (value - inMin) * (outMax - outMin) / (inMax - inMin) + outMin

/-! Spec-modelled backend steps.

The backend engine files (`app/core/aether_agent.py`,
`app/chemistry/ifra_validator.py`) are not part of the source snapshot;
only the spec describes them. The definitions below are modelled from the
spec's words and are marked as such. -/

/-- Tier placement of a backend formula component (spec §3, Formula). -/
inductive Tier where
  | top
  | heart
  | base
deriving DecidableEq

/-- Modelled from the spec: a backend `FormulaComponent` (§3) — an
ingredient reference (name), a concentration percentage, a tier
placement, and the ingredient's allergen identifiers (§3 Ingredient). -/
structure MixComponent where
  name : String
  concentration : ℚ
  tier : Tier
  allergens : List String
deriving DecidableEq

/-- Total concentration of a backend formula (grand total over all tiers). -/
def mixTotal (F : List MixComponent) : ℚ :=
  (F.map (fun c => c.concentration)).sum

/-- Modelled from the spec: renormalization (§4.3 step 4) — scale every
component's concentration so the grand total is exactly 100, preserving
relative proportions; degenerate zero-total formulas are left unchanged. -/
def renormalize (F : List MixComponent) : List MixComponent :=
  if mixTotal F = 0 then F
  else F.map (fun c => { c with concentration := c.concentration * (100 / mixTotal F) })

/-- Aggregate concentration contributed by all components carrying a given
allergen identifier (spec §4.4). -/
def aggregate (F : List MixComponent) (a : String) : ℚ :=
  ((F.filter (fun c => a ∈ c.allergens)).map (fun c => c.concentration)).sum

/-- A compliance-limit table: allergen identifier paired with its maximum
permitted aggregate concentration (spec §3, ComplianceLimit). -/
abbrev ComplianceTable := List (String × ℚ)

/-- The compliance check of the validator: every declared allergen's
aggregate is at or below its limit (spec §8, compliance monotonicity). -/
def compliant (limits : ComplianceTable) (F : List MixComponent) : Bool :=
  List.all limits (fun p => decide (aggregate F p.1 ≤ p.2))

/-- Modelled from the spec: one proportional reduction for one allergen
(§4.4). If the allergen's aggregate `A` exceeds its limit `L`, every
contributing component is scaled by a common factor; the spec leaves the
exact factor open (§9, open question) subject to "reduce ... until the
aggregate is at or below the limit, then renormalize the whole formula to
100 again" and to scenario C (post-renormalization aggregate ≤ limit), so
the factor is chosen to make the aggregate equal `L · R / (100 - L)` with
`R` the non-contributing rest — exactly the value that renormalizing the
whole formula back to 100 sends to `L`. Components driven to zero or
below are removed entirely (§4.4 removal rule). -/
def reduceAllergen (a : String) (L : ℚ) (F : List MixComponent) : List MixComponent :=
  let A := aggregate F a
  if A ≤ L then F
  else
    let R := mixTotal F - A
    let factor := (L * R / (100 - L)) / A
    (F.map (fun c =>
      if a ∈ c.allergens then { c with concentration := c.concentration * factor }
      else c)).filter (fun c => decide (0 < c.concentration))

/-- Modelled from the spec: one pass of the validator's reduction step —
each declared allergen is reduced in table order (§4.4). -/
def reducePass (limits : ComplianceTable) (F : List MixComponent) : List MixComponent :=
  List.foldl (fun cur p => reduceAllergen p.1 p.2 cur) F limits

/-- The validator's hard-failure case (spec §7, `ComplianceUnsatisfiable`). -/
inductive ComplianceError where
  | unsatisfiable
deriving DecidableEq

/-- Modelled from the spec: the Compliance Validator (§4.4, §7) — reduce
over-limit allergens and renormalize, repeating until every aggregate is
at or below its limit ("until" loop, run on bounded fuel); if compliance
is never reached the validator surfaces `ComplianceUnsatisfiable` as a
hard failure rather than silently returning a non-compliant formula. -/
def validate (limits : ComplianceTable) : Nat → List MixComponent → Except ComplianceError (List MixComponent)
  | 0, F => if compliant limits F then .ok F else .error .unsatisfiable
  | n + 1, F =>
      if compliant limits F then .ok F
      else validate limits n (renormalize (reducePass limits F))

/-! Theorems. -/

/-- C1: the claim that every displayed Formula — including the formula
constant rendered on the result page — has component concentrations
summing to 100 within 1e-6 fails on the source: `sampleFormula`'s
concentrations sum to 91 (tiers 16 + 35 + 40), which is not within 1e-6
of 100. -/
theorem sampleFormula_total_91_not_100 :
    totalConcentration sampleFormula = 91 ∧
    ¬ |totalConcentration sampleFormula - 100| ≤ 1 / 1000000 := by
  constructor
  · norm_num [totalConcentration, tierTotal, sampleFormula]
  · norm_num [totalConcentration, tierTotal, sampleFormula]

/-- C3: the claim that the displayed formula follows the canonical
20/35/45 pyramid split fails on the source: `sampleFormula`'s tier sums
are 16, 35 and 40 against a 91 total, and none of the three tiers holds
exactly its canonical share (20%, 35%, 45%) of the total. -/
theorem sampleFormula_pyramid_split_violated :
    tierTotal sampleFormula.topNotes = 16 ∧
    tierTotal sampleFormula.middleNotes = 35 ∧
    tierTotal sampleFormula.baseNotes = 40 ∧
    tierTotal sampleFormula.topNotes ≠ 20 / 100 * totalConcentration sampleFormula ∧
    tierTotal sampleFormula.middleNotes ≠ 35 / 100 * totalConcentration sampleFormula ∧
    tierTotal sampleFormula.baseNotes ≠ 45 / 100 * totalConcentration sampleFormula := by
  refine ⟨?_, ?_, ?_, ?_, ?_, ?_⟩ <;>
    norm_num [tierTotal, totalConcentration, sampleFormula]

/-- C2 counterexample: the exported formula record does not use the field
name `heartNotes` (its middle tier is keyed `middleNotes`), has no
`physioCorrections` field at all, and its metrics object carries the
extra key `uniqueness`, so it does not use exactly the four metric keys
the claim lists. -/
theorem serializeFormula_heartNotes_absent :
    "heartNotes" ∉ objKeys (serializeFormula sampleFormula) ∧
    "physioCorrections" ∉ objKeys (serializeFormula sampleFormula) ∧
    "uniqueness" ∈ objKeys (serializeMetrics sampleFormula.metrics) := by
  refine ⟨?_, ?_, ?_⟩ <;> simp [serializeFormula, serializeMetrics, objKeys]

/-- C2 (amended): every exported formula record uses the top-level keys
`name`, `description`, `topNotes`, `middleNotes`, `baseNotes`, `metrics`
in that order; each note entry is serialized with exactly the keys
`name`, `concentration`, `sustainable`; and the metrics object has
exactly the keys `longevity`, `projection`, `uniqueness`,
`sustainability`, `ifraCompliance`. -/
theorem serializeFormula_field_names :
    (∀ f : Formula, objKeys (serializeFormula f) =
      ["name", "description", "topNotes", "middleNotes", "baseNotes", "metrics"]) ∧
    (∀ c : FormulaComponent, objKeys (serializeComponent c) =
      ["name", "concentration", "sustainable"]) ∧
    (∀ m : FormulaMetrics, objKeys (serializeMetrics m) =
      ["longevity", "projection", "uniqueness", "sustainability", "ifraCompliance"]) :=
  ⟨fun _ => rfl, fun _ => rfl, fun _ => rfl⟩

/-- C7: every scalar score of the metrics record in the source — the five
values of `sampleFormula.metrics` — lies in the closed interval
[0, 100]. -/
theorem sampleFormula_metrics_in_range :
    (0 ≤ sampleFormula.metrics.longevity ∧ sampleFormula.metrics.longevity ≤ 100) ∧
    (0 ≤ sampleFormula.metrics.projection ∧ sampleFormula.metrics.projection ≤ 100) ∧
    (0 ≤ sampleFormula.metrics.uniqueness ∧ sampleFormula.metrics.uniqueness ≤ 100) ∧
    (0 ≤ sampleFormula.metrics.sustainability ∧ sampleFormula.metrics.sustainability ≤ 100) ∧
    (0 ≤ sampleFormula.metrics.ifraCompliance ∧ sampleFormula.metrics.ifraCompliance ≤ 100) := by
  norm_num [sampleFormula]

/-- C5: for every valence and arousal in [-1, 1], `getScentFamilies`
returns a non-empty list that is one of the five quadrant-determined
family lists, and whenever either coordinate lies within the central band
[-0.15, 0.15] the neutral list is returned. (Totality and determinism
hold by construction: the embedding is a total function.) -/
theorem getScentFamilies_quadrants (v a : ℚ)
    (_hv1 : -1 ≤ v) (_hv2 : v ≤ 1) (_ha1 : -1 ≤ a) (_ha2 : a ≤ 1) :
    getScentFamilies v a ≠ [] ∧
    (getScentFamilies v a = ["Citrus", "Fresh", "Fruity", "Sparkling"] ∨
     getScentFamilies v a = ["Woody", "Floral", "Musky", "Amber"] ∨
     getScentFamilies v a = ["Herbal", "Green", "Aquatic", "Aromatic"] ∨
     getScentFamilies v a = ["Resinous", "Ambery", "Earthy", "Smoky"] ∨
     getScentFamilies v a = ["Woody", "Aromatic", "Floral", "Balanced"]) ∧
    (((-0.15 ≤ v ∧ v ≤ 0.15) ∨ (-0.15 ≤ a ∧ a ≤ 0.15)) →
      getScentFamilies v a = ["Woody", "Aromatic", "Floral", "Balanced"]) := by
  unfold getScentFamilies
  split_ifs with h1 h2 h3 h4
  · refine ⟨by simp, Or.inl rfl, fun hb => ?_⟩
    exfalso
    rcases hb with ⟨hb1, hb2⟩ | ⟨hb1, hb2⟩ <;> linarith [h1.1, h1.2]
  · refine ⟨by simp, Or.inr (Or.inl rfl), fun hb => ?_⟩
    exfalso
    rcases hb with ⟨hb1, hb2⟩ | ⟨hb1, hb2⟩ <;> linarith [h2.1, h2.2]
  · refine ⟨by simp, Or.inr (Or.inr (Or.inl rfl)), fun hb => ?_⟩
    exfalso
    rcases hb with ⟨hb1, hb2⟩ | ⟨hb1, hb2⟩ <;> linarith [h3.1, h3.2]
  · refine ⟨by simp, Or.inr (Or.inr (Or.inr (Or.inl rfl))), fun hb => ?_⟩
    exfalso
    rcases hb with ⟨hb1, hb2⟩ | ⟨hb1, hb2⟩ <;> linarith [h4.1, h4.2]
  · exact ⟨by simp, Or.inr (Or.inr (Or.inr (Or.inr rfl))), fun _ => rfl⟩

/-- C5 witness: the quadrant property instantiated at valence 0,
arousal 0 (the neutral centre). -/
theorem getScentFamilies_quadrants_witness :
    (-1 ≤ (0 : ℚ) ∧ (0 : ℚ) ≤ 1) ∧
    (getScentFamilies 0 0 ≠ [] ∧
     (getScentFamilies 0 0 = ["Citrus", "Fresh", "Fruity", "Sparkling"] ∨
      getScentFamilies 0 0 = ["Woody", "Floral", "Musky", "Amber"] ∨
      getScentFamilies 0 0 = ["Herbal", "Green", "Aquatic", "Aromatic"] ∨
      getScentFamilies 0 0 = ["Resinous", "Ambery", "Earthy", "Smoky"] ∨
      getScentFamilies 0 0 = ["Woody", "Aromatic", "Floral", "Balanced"]) ∧
     (((-0.15 ≤ (0 : ℚ) ∧ (0 : ℚ) ≤ 0.15) ∨ (-0.15 ≤ (0 : ℚ) ∧ (0 : ℚ) ≤ 0.15)) →
       getScentFamilies 0 0 = ["Woody", "Aromatic", "Floral", "Balanced"])) :=
  ⟨by norm_num,
   getScentFamilies_quadrants 0 0 (by norm_num) (by norm_num) (by norm_num) (by norm_num)⟩

/-- C8: `getMoodLabel` and `getScentFamilies` partition the
valence/arousal plane identically — for every v, a the family list equals
the one associated with the returned mood label, and in particular the
label is "Excited / Joyful" exactly when the families are the
citrus list and "Neutral / Balanced" exactly when they are the neutral
list. -/
theorem scentFamilies_match_moodLabel (v a : ℚ) :
    getScentFamilies v a = moodFamilies (getMoodLabel v a) ∧
    (getMoodLabel v a = "Excited / Joyful" ↔
      getScentFamilies v a = ["Citrus", "Fresh", "Fruity", "Sparkling"]) ∧
    (getMoodLabel v a = "Neutral / Balanced" ↔
      getScentFamilies v a = ["Woody", "Aromatic", "Floral", "Balanced"]) := by
  unfold getScentFamilies getMoodLabel
  split_ifs <;> refine ⟨by decide, by decide, by decide⟩

/-- C9: for min ≤ max, `clamp` lands in [min, max], fixes values already
in [min, max], and is idempotent. -/
theorem clamp_spec (value min max : ℚ) (h : min ≤ max) :
    (min ≤ clamp value min max ∧ clamp value min max ≤ max) ∧
    (min ≤ value → value ≤ max → clamp value min max = value) ∧
    clamp (clamp value min max) min max = clamp value min max := by
  have hin : ∀ x : ℚ, min ≤ x → x ≤ max → clamp x min max = x := by
    intro x h1 h2
    unfold clamp
    rw [max_eq_left h1, min_eq_left h2]
  have hlo : min ≤ clamp value min max := le_min (le_max_right value min) h
  have hhi : clamp value min max ≤ max := min_le_right _ _
  exact ⟨⟨hlo, hhi⟩, fun h1 h2 => hin value h1 h2, hin _ hlo hhi⟩

/-- C9 witness: the clamp properties instantiated at value 5,
range [0, 10]. -/
theorem clamp_spec_witness :
    (0 : ℚ) ≤ 10 ∧
    (((0 : ℚ) ≤ clamp 5 0 10 ∧ clamp (5 : ℚ) 0 10 ≤ 10) ∧
     ((0 : ℚ) ≤ 5 → (5 : ℚ) ≤ 10 → clamp (5 : ℚ) 0 10 = 5) ∧
     clamp (clamp (5 : ℚ) 0 10) 0 10 = clamp (5 : ℚ) 0 10) :=
  ⟨by norm_num, clamp_spec 5 0 10 (by norm_num)⟩

/-- C10: `mapRange` divides by `inMax - inMin` with no guard, so the
precondition inMin ≠ inMax is required; under it, the endpoints map
exactly to outMin and outMax. -/
theorem mapRange_endpoints (inMin inMax outMin outMax : ℚ)
    (h : inMin ≠ inMax) :
    mapRange inMin inMin inMax outMin outMax = outMin ∧
    mapRange inMax inMin inMax outMin outMax = outMax := by
  have hne : inMax - inMin ≠ 0 := sub_ne_zero.mpr (Ne.symm h)
  constructor
  · unfold mapRange
    rw [sub_self, zero_mul, zero_div, zero_add]
  · unfold mapRange
    field_simp

/-- C10 witness: the endpoint property instantiated at input range
[0, 1] and output range [0, 10]. -/
theorem mapRange_endpoints_witness :
    (0 : ℚ) ≠ 1 ∧
    (mapRange (0 : ℚ) 0 1 0 10 = 0 ∧ mapRange (1 : ℚ) 0 1 0 10 = 10) :=
  ⟨by norm_num, mapRange_endpoints 0 1 0 10 (by norm_num)⟩

/-- A compliant check in `Bool` unfolds to the aggregate bound for every
declared allergen. -/
lemma compliant_iff (limits : ComplianceTable) (F : List MixComponent) :
    compliant limits F = true ↔ ∀ a L, (a, L) ∈ limits → aggregate F a ≤ L := by
  unfold compliant
  rw [List.all_eq_true]
  constructor
  · intro h a L hm
    exact of_decide_eq_true (h (a, L) hm)
  · intro h p hm
    exact decide_eq_true (h p.1 p.2 hm)

/-- C6: renormalization is idempotent — applying `renormalize` to a
formula whose total concentration is already 100 leaves every component
(and hence every concentration) unchanged. -/
theorem renormalize_idempotent (F : List MixComponent) (h : mixTotal F = 100) :
    renormalize F = F := by
  unfold renormalize
  rw [h]
  rw [if_neg (by norm_num)]
  have hc : ∀ c : MixComponent, c.concentration * ((100 : ℚ) / 100) = c.concentration := by
    intro c
    norm_num
  simp only [hc]
  exact List.map_id F

/-- A demonstration formula whose total is already 100: a 20/35/45
three-tier mix. -/
def demoBalanced : List MixComponent :=
  [ { name := "Bergamot", concentration := 20, tier := .top, allergens := ["limonene"] }
  , { name := "Rose Absolute", concentration := 35, tier := .heart, allergens := ["geraniol"] }
  , { name := "Sandalwood", concentration := 45, tier := .base, allergens := [] } ]

/-- C6 witness: the idempotence instantiated on the concrete balanced
demo formula. -/
theorem renormalize_idempotent_witness :
    mixTotal demoBalanced = 100 ∧ renormalize demoBalanced = demoBalanced :=
  ⟨by norm_num [mixTotal, demoBalanced],
   renormalize_idempotent demoBalanced (by norm_num [mixTotal, demoBalanced])⟩

/-- C4: whenever the validator returns a formula (the `Except.ok` path —
its only success path, the alternative being the hard
`ComplianceUnsatisfiable` failure), every declared allergen's aggregate
concentration in the returned formula is at or below its compliance
limit; no non-compliant formula is ever returned. -/
theorem validate_ok_compliant (limits : ComplianceTable) (fuel : Nat)
    (F F' : List MixComponent)
    (h : validate limits fuel F = .ok F') :
    ∀ a L, (a, L) ∈ limits → aggregate F' a ≤ L := by
  induction fuel generalizing F with
  | zero =>
    unfold validate at h
    by_cases hc : compliant limits F
    · rw [if_pos hc] at h
      cases h
      exact (compliant_iff limits _).mp hc
    · rw [if_neg hc] at h
      cases h
  | succ n ih =>
    unfold validate at h
    by_cases hc : compliant limits F
    · rw [if_pos hc] at h
      cases h
      exact (compliant_iff limits _).mp hc
    · rw [if_neg hc] at h
      exact ih _ h

/-- A demonstration formula carrying 4% of an oakmoss-bearing component
against a 3% limit (spec §8, scenario C shape). -/
def demoOverLimit : List MixComponent :=
  [ { name := "Oakmoss Absolute", concentration := 4, tier := .base, allergens := ["oakmoss"] }
  , { name := "Cedarwood", concentration := 96, tier := .base, allergens := [] } ]

/-- The validated form of `demoOverLimit`: the oakmoss component reduced
to the 3% ceiling, the rest renormalized so the total is again 100. -/
def demoValidated : List MixComponent :=
  [ { name := "Oakmoss Absolute", concentration := 3, tier := .base, allergens := ["oakmoss"] }
  , { name := "Cedarwood", concentration := 97, tier := .base, allergens := [] } ]

/-- C4 witness: validating the concrete over-limit demo formula returns
the reduced formula, whose oakmoss aggregate is at the 3% limit. -/
theorem validate_ok_compliant_witness :
    validate [("oakmoss", 3)] 2 demoOverLimit = .ok demoValidated ∧
    ("oakmoss", (3 : ℚ)) ∈ [("oakmoss", (3 : ℚ))] ∧
    aggregate demoValidated "oakmoss" ≤ 3 :=
  ⟨by norm_num [validate, compliant, aggregate, reducePass, reduceAllergen,
      renormalize, mixTotal, demoOverLimit, demoValidated],
   by simp,
   validate_ok_compliant [("oakmoss", 3)] 2 demoOverLimit demoValidated
     (by norm_num [validate, compliant, aggregate, reducePass, reduceAllergen,
        renormalize, mixTotal, demoOverLimit, demoValidated])
     "oakmoss" 3 (by simp)⟩
